import Mathlib

/-!
Verification development for the Home Assistant / Flic Twist integration
script (home-assistant-flic-integration.js).  The repository's core is a
debounced, cooldown-gated device-update pipeline; the definitions below are
a shallow embedding of its functions, with JS numbers modelled as rationals
(`ℚ`), timestamps as integers/naturals, JS `Map`s as functions into `Option`,
and the effects of each handler recorded as explicit traces.
-/

namespace FlicHass

/-! ## JavaScript numeric helpers -/

/-- JS `Math.round`: rounds half toward positive infinity. -/
def jsRound (x : ℚ) : ℤ := (x + 1/2).floor

lemma jsRound_eq_floor (x : ℚ) : jsRound x = ⌊x + 1/2⌋ := by
  rw [jsRound, Rat.floor_def']
  exact (@Rat.floor_def (x + 1/2)).symm

/-- JS `Math.max(lo, Math.min(hi, x))` on rationals. -/
def clampQ (lo hi x : ℚ) : ℚ := max lo (min hi x)

/-- JS `Math.max(lo, Math.min(hi, x))` on integers. -/
def clampZ (lo hi x : ℤ) : ℤ := max lo (min hi x)

/-- `Math.round(x * 10) / 10`: round to one decimal place. -/
def round1 (x : ℚ) : ℚ := ((jsRound (x * 10) : ℤ) : ℚ) / 10

/-- `const MEANINGFUL_SATURATION_THRESHOLD = 5` (percent). -/
def MEANINGFUL_SATURATION_THRESHOLD : ℚ := 5

/-- `const DEBOUNCE_DELAY = 100` (milliseconds). -/
def DEBOUNCE_DELAY : Nat := 100

/-- `const PLAYBACK_COOLDOWN_MS = 2500` (milliseconds). -/
def PLAYBACK_COOLDOWN_MS : ℤ := 2500

/-! ## Debounce coordinator (`debouncedDeviceUpdate`)

State of one `(deviceId, updateType)` key of the pending-updates table,
together with the observable traces: every invocation of the immediate
local-state callback and every invocation of the debounced remote-apply
callback, in order.  `pending = some (ft, v)` models a scheduled
`setTimeout` due at absolute time `ft` carrying payload `v`. -/

structure DebounceState (V : Type) where
  pending : Option (Nat × V)
  localTrace : List V
  remoteTrace : List V
deriving DecidableEq

def DebounceState.initial (V : Type) : DebounceState V := ⟨none, [], []⟩

/-- Event-loop step: before any handler runs at time `t`, a timer that is
already due (`ft ≤ t`) has fired: its remote apply was invoked and its
pending entry deleted (the `finally` of the timeout callback). -/
def fireDue {V : Type} (t : Nat) (s : DebounceState V) : DebounceState V :=
  match s.pending with
  | some (ft, pv) =>
      if ft ≤ t then ⟨none, s.localTrace, s.remoteTrace ++ [pv]⟩ else s
  | none => s

/-- One call of `debouncedDeviceUpdate` at time `t` with value `v`:
`clearTimeout` cancels a not-yet-fired timer for the key (its value is
dropped), the immediate state update runs with `v`, and a fresh timer is
scheduled at `t + DEBOUNCE_DELAY` carrying `v`. -/
def debouncedDeviceUpdate {V : Type} (t : Nat) (v : V) (s : DebounceState V) :
    DebounceState V :=
  let s1 := fireDue t s
  ⟨some (t + DEBOUNCE_DELAY, v), s1.localTrace ++ [v], s1.remoteTrace⟩

/-- After the burst, time passes beyond the last deadline: the surviving
timer fires, invoking the remote apply and deleting the pending entry. -/
def flushTimers {V : Type} (s : DebounceState V) : DebounceState V :=
  match s.pending with
  | some (_, pv) => ⟨none, s.localTrace, s.remoteTrace ++ [pv]⟩
  | none => s

/-- Process a list of `(time, value)` calls for one key, in order. -/
def runBurst {V : Type} (calls : List (Nat × V)) (s : DebounceState V) :
    DebounceState V :=
  calls.foldl (fun st c => debouncedDeviceUpdate c.1 c.2 st) s

/-- Call times are nondecreasing along the list. -/
def callsOrderedB {V : Type} : List (Nat × V) → Bool
  | [] => true
  | [_] => true
  | a :: b :: r => decide (a.1 ≤ b.1) && callsOrderedB (b :: r)

/-- Relative burst shape: each call arrives at or after `t0` and strictly
before `t0 + DEBOUNCE_DELAY`, where `t0` advances to the previous call. -/
def burstOkB {V : Type} : Nat → List (Nat × V) → Bool
  | _, [] => true
  | t0, (t, _) :: r => (decide (t0 ≤ t) && decide (t < t0 + DEBOUNCE_DELAY)) && burstOkB t r

lemma orderedB_head_le {V : Type} :
    ∀ (l : List (Nat × V)) (a : Nat × V), callsOrderedB (a :: l) = true →
      ∀ c ∈ l, a.1 ≤ c.1 := by
  intro l
  induction l with
  | nil => intro a _ c hc; simp at hc
  | cons b r ih =>
      intro a h c hc
      have h1 : a.1 ≤ b.1 ∧ callsOrderedB (b :: r) = true := by
        simpa [callsOrderedB] using h
      rcases List.mem_cons.mp hc with rfl | hr
      · exact h1.1
      · exact le_trans h1.1 (ih b h1.2 c hr)

lemma orderedB_tail {V : Type} (a : Nat × V) (l : List (Nat × V))
    (h : callsOrderedB (a :: l) = true) : callsOrderedB l = true := by
  cases l with
  | nil => simp [callsOrderedB]
  | cons b r =>
      have h1 : a.1 ≤ b.1 ∧ callsOrderedB (b :: r) = true := by
        simpa [callsOrderedB] using h
      exact h1.2

lemma burstOk_of_ordered {V : Type} :
    ∀ (l : List (Nat × V)) (t0 : Nat), callsOrderedB l = true →
      (∀ c ∈ l, t0 ≤ c.1) → (∀ c ∈ l, c.1 < t0 + DEBOUNCE_DELAY) →
      burstOkB t0 l = true := by
  intro l
  induction l with
  | nil => intro t0 _ _ _; simp [burstOkB]
  | cons a r ih =>
      intro t0 hord hlo hhi
      have ha_lo : t0 ≤ a.1 := hlo a (List.mem_cons_self a r)
      have ha_hi : a.1 < t0 + DEBOUNCE_DELAY := hhi a (List.mem_cons_self a r)
      have hrec : burstOkB a.1 r = true := by
        refine ih a.1 (orderedB_tail a r hord) ?_ ?_
        · exact orderedB_head_le r a hord
        · intro c hc
          exact lt_of_lt_of_le (hhi c (List.mem_cons_of_mem a hc))
            (Nat.add_le_add_right ha_lo DEBOUNCE_DELAY)
      cases a with
      | mk t v => simpa [burstOkB] using ⟨⟨ha_lo, ha_hi⟩, hrec⟩

lemma runBurst_cons {V : Type} (a : Nat × V) (rest : List (Nat × V)) :
    ∀ (t0 : Nat) (w : V) (L R : List V), burstOkB t0 (a :: rest) = true →
      runBurst (a :: rest) ⟨some (t0 + DEBOUNCE_DELAY, w), L, R⟩ =
        ⟨some (((a :: rest).getLast (by simp)).1 + DEBOUNCE_DELAY,
               ((a :: rest).getLast (by simp)).2),
         L ++ (a :: rest).map Prod.snd, R⟩ := by
  induction rest generalizing a with
  | nil =>
      intro t0 w L R hok
      cases a with
      | mk t v =>
          have hlt : t < t0 + DEBOUNCE_DELAY := by
            simp [burstOkB] at hok; exact hok.2
          have hnot : ¬ (t0 + DEBOUNCE_DELAY ≤ t) := not_le.mpr hlt
          simp [runBurst, debouncedDeviceUpdate, fireDue, hnot]
  | cons b r ih =>
      intro t0 w L R hok
      cases a with
      | mk t v =>
          have hok' : ((t0 ≤ t ∧ t < t0 + DEBOUNCE_DELAY)) ∧ burstOkB t (b :: r) = true := by
            simpa [burstOkB] using hok
          have hnot : ¬ (t0 + DEBOUNCE_DELAY ≤ t) := not_le.mpr hok'.1.2
          have hstep :
              runBurst ((t, v) :: b :: r) ⟨some (t0 + DEBOUNCE_DELAY, w), L, R⟩ =
              runBurst (b :: r) ⟨some (t + DEBOUNCE_DELAY, v), L ++ [v], R⟩ := by
            simp [runBurst, debouncedDeviceUpdate, fireDue, hnot]
          rw [hstep, ih b t v (L ++ [v]) R hok'.2]
          simp [List.getLast_cons]

/-- C1: for a nonempty ordered burst of calls all strictly inside the
first call's debounce window, the local trace is every value in call order
and the remote trace is exactly the last value. -/
theorem debounce_burst_spec {V : Type} (calls : List (Nat × V))
    (hne : calls ≠ [])
    (hord : callsOrderedB calls = true)
    (hwin : ∀ c ∈ calls, c.1 < (calls.head hne).1 + DEBOUNCE_DELAY) :
    (flushTimers (runBurst calls (DebounceState.initial V))).localTrace
        = calls.map Prod.snd ∧
    (flushTimers (runBurst calls (DebounceState.initial V))).remoteTrace
        = [(calls.getLast hne).2] := by
  cases calls with
  | nil => exact absurd rfl hne
  | cons a rest =>
      have hstep :
          runBurst (a :: rest) (DebounceState.initial V) =
          runBurst rest ⟨some (a.1 + DEBOUNCE_DELAY, a.2), [a.2], []⟩ := by
        cases a with
        | mk t v => simp [runBurst, DebounceState.initial, debouncedDeviceUpdate, fireDue]
      cases rest with
      | nil =>
          rw [hstep]
          simp [runBurst, flushTimers]
      | cons b r =>
          have hok : burstOkB a.1 (b :: r) = true := by
            refine burstOk_of_ordered (b :: r) a.1 (orderedB_tail a (b :: r) hord) ?_ ?_
            · exact orderedB_head_le (b :: r) a hord
            · intro c hc
              simpa using hwin c (List.mem_cons_of_mem a hc)
          rw [hstep, runBurst_cons b r a.1 a.2 [a.2] [] hok]
          constructor
          · simp [flushTimers]
          · simp [flushTimers, List.getLast_cons]

/-- C1 witness: three calls at 0ms, 30ms, 60ms with values 1, 2, 3 produce
local writes [1, 2, 3] and the single remote apply [3]. -/
theorem debounce_burst_spec_witness :
    (flushTimers (runBurst [(0, (1 : ℕ)), (30, 2), (60, 3)]
        (DebounceState.initial ℕ))).localTrace = [1, 2, 3] ∧
    (flushTimers (runBurst [(0, (1 : ℕ)), (30, 2), (60, 3)]
        (DebounceState.initial ℕ))).remoteTrace = [3] := by
  have h := @debounce_burst_spec ℕ [(0, 1), (30, 2), (60, 3)]
    (by decide) (by decide) (by decide)
  simpa using h

/-! ## Color memory (`colorMemory`, `rememberColor`, `getRememberedColor`)

The JS `Map` keyed by device id, modelled as a function into `Option`. -/

def ColorMemory : Type := String → Option (ℚ × ℚ)

def ColorMemory.empty : ColorMemory := fun _ => none

/-- `rememberColor(deviceId, hue, saturation)`: stores `(hue, saturation)`
for the device only when `saturation > MEANINGFUL_SATURATION_THRESHOLD`. -/
def rememberColor (mem : ColorMemory) (deviceId : String) (hue saturation : ℚ) :
    ColorMemory :=
  if saturation > MEANINGFUL_SATURATION_THRESHOLD then
    fun k => if k = deviceId then some (hue, saturation) else mem k
  else mem

/-- `getRememberedColor(deviceId, fallbackHue, fallbackSat)`: the stored
pair if present, else the fallbacks. -/
def getRememberedColor (mem : ColorMemory) (deviceId : String)
    (fallbackHue fallbackSat : ℚ) : ℚ × ℚ :=
  match mem deviceId with
  | some p => p
  | none => (fallbackHue, fallbackSat)

/-- A color update coming from the debouncer: `hue`/`saturation` are the
normalized (0..1) twist values, `none` when the field was `undefined`. -/
structure ColorUpdate where
  hue : Option ℚ
  saturation : Option ℚ
deriving DecidableEq

/-- `applyColorUpdate(deviceId, colorUpdate)`.  Inputs beyond the update
itself: whether the device was found with type `color_light`, and the
`hs_color` attribute read back from Home Assistant (`none` when absent).
Returns the color memory after the call and the `hs_color` pair sent with
the `light.turn_on` service call (`none` when no call was made). -/
def applyColorUpdate (isColorLight : Bool) (hs_color : Option (ℚ × ℚ))
    (mem : ColorMemory) (deviceId : String) (upd : ColorUpdate) :
    ColorMemory × Option (ℚ × ℚ) :=
  if isColorLight = false then (mem, none) else
  let currentHue : ℚ := match hs_color with | some p => p.1 | none => 0
  let currentSat : ℚ := match hs_color with | some p => p.2 | none => 100
  let mem1 : ColorMemory := match hs_color with
    | some p => rememberColor mem deviceId p.1 p.2
    | none => mem
  let finalHue1 : ℚ := match upd.hue with
    | some h => ((jsRound (h * 360) : ℤ) : ℚ)
    | none => currentHue
  match upd.saturation with
  | some sval =>
      let newSat : ℚ := ((jsRound (sval * 100) : ℤ) : ℚ)
      let finalHue2 : ℚ :=
        if currentSat ≤ MEANINGFUL_SATURATION_THRESHOLD ∧
            newSat > MEANINGFUL_SATURATION_THRESHOLD then
          match upd.hue with
          | none => (getRememberedColor mem1 deviceId finalHue1 newSat).1
          | some _ => finalHue1
        else finalHue1
      (rememberColor mem1 deviceId finalHue2 newSat, some (finalHue2, newSat))
  | none =>
      (rememberColor mem1 deviceId finalHue1 currentSat, some (finalHue1, currentSat))

/-- Every stored entry has saturation above the threshold. -/
def memOK (mem : ColorMemory) : Prop :=
  ∀ id p, mem id = some p → MEANINGFUL_SATURATION_THRESHOLD < p.2

lemma rememberColor_memOK (mem : ColorMemory) (deviceId : String)
    (hue saturation : ℚ) (h : memOK mem) :
    memOK (rememberColor mem deviceId hue saturation) := by
  intro id p hp
  unfold rememberColor at hp
  by_cases hs : saturation > MEANINGFUL_SATURATION_THRESHOLD
  · rw [if_pos hs] at hp
    by_cases hid : id = deviceId
    · rw [if_pos hid] at hp
      cases hp
      exact hs
    · rw [if_neg hid] at hp
      exact h id p hp
  · rw [if_neg hs] at hp
    exact h id p hp

/-- C4: `rememberColor` is a no-op at or below the 5 percent threshold, and
every operation that writes the store (`rememberColor` itself and the whole
of `applyColorUpdate`) preserves the invariant that stored saturations are
strictly above the threshold. -/
theorem remember_below_threshold_noop :
    (∀ (mem : ColorMemory) (deviceId : String) (hue sat : ℚ),
      sat ≤ MEANINGFUL_SATURATION_THRESHOLD →
        rememberColor mem deviceId hue sat = mem) ∧
    (∀ (mem : ColorMemory) (deviceId : String) (hue sat : ℚ),
      memOK mem → memOK (rememberColor mem deviceId hue sat)) ∧
    (∀ (b : Bool) (hs : Option (ℚ × ℚ)) (mem : ColorMemory) (deviceId : String)
        (upd : ColorUpdate),
      memOK mem → memOK (applyColorUpdate b hs mem deviceId upd).1) := by
  refine ⟨?_, ?_, ?_⟩
  · intro mem deviceId hue sat hle
    unfold rememberColor
    rw [if_neg (not_lt.mpr hle)]
  · intro mem deviceId hue sat h
    exact rememberColor_memOK mem deviceId hue sat h
  · intro b hs mem deviceId upd h
    unfold applyColorUpdate
    by_cases hb : b = false
    · simp [hb]; exact h
    · rw [if_neg hb]
      have h1 : memOK (match hs with
          | some p => rememberColor mem deviceId p.1 p.2
          | none => mem) := by
        cases hs with
        | some p => exact rememberColor_memOK mem deviceId p.1 p.2 h
        | none => exact h
      cases hupd : upd.saturation with
      | some sval =>
          simp only [hupd]
          exact rememberColor_memOK _ deviceId _ _ h1
      | none =>
          simp only [hupd]
          exact rememberColor_memOK _ deviceId _ _ h1

/-- C4 witness: remembering saturation 3 (≤ 5) leaves an empty store empty,
and the invariant holds after a full `applyColorUpdate` on a store that
satisfied it. -/
theorem remember_below_threshold_noop_witness :
    rememberColor ColorMemory.empty "light1" 120 3 = ColorMemory.empty ∧
    memOK (applyColorUpdate true (some (120, 80)) ColorMemory.empty "light1"
      ⟨none, some 0⟩).1 :=
  ⟨remember_below_threshold_noop.1 ColorMemory.empty "light1" 120 3
     (by norm_num [MEANINGFUL_SATURATION_THRESHOLD]),
   remember_below_threshold_noop.2.2 true (some (120, 80)) ColorMemory.empty "light1"
     ⟨none, some 0⟩ (fun id p hp => by simp [ColorMemory.empty] at hp)⟩

/-- C3: when a saturation update moves the device from at most the
threshold to strictly above it and no explicit hue was supplied, the
`hs_color` sent to Home Assistant carries the recalled hue (stored hue if
present, else the observed current hue as fallback), paired with the new
saturation. -/
theorem restore_from_white_uses_remembered_hue
    (mem : ColorMemory) (deviceId : String) (ch cs sval : ℚ)
    (hcs : cs ≤ MEANINGFUL_SATURATION_THRESHOLD)
    (hns : MEANINGFUL_SATURATION_THRESHOLD < ((jsRound (sval * 100) : ℤ) : ℚ)) :
    (applyColorUpdate true (some (ch, cs)) mem deviceId ⟨none, some sval⟩).2 =
      some ((getRememberedColor mem deviceId ch ((jsRound (sval * 100) : ℤ) : ℚ)).1,
            ((jsRound (sval * 100) : ℤ) : ℚ)) := by
  have hmem1 : rememberColor mem deviceId ch cs = mem := by
    unfold rememberColor
    rw [if_neg (not_lt.mpr hcs)]
  unfold applyColorUpdate
  simp only [hmem1, if_pos (And.intro hcs hns)]
  simp

/-- C3 witness: the spec scenario.  A color light at hue 120, saturation 80
has saturation dragged to 0 (the first `applyColorUpdate` stores (120, 80)
in memory and sends (120, 0)), then back to 60 percent with no hue in the
update: the second call sends hue 120 — the remembered hue — with
saturation 60. -/
theorem restore_from_white_uses_remembered_hue_witness :
    (applyColorUpdate true (some (120, 80)) ColorMemory.empty "light1"
        ⟨none, some 0⟩).2 = some (120, 0) ∧
    (applyColorUpdate true (some (120, 0))
        (applyColorUpdate true (some (120, 80)) ColorMemory.empty "light1"
          ⟨none, some 0⟩).1 "light1" ⟨none, some (3/5)⟩).2 = some (120, 60) := by
  have e0 : jsRound 0 = 0 := by rw [jsRound_eq_floor]; norm_num
  have e60 : jsRound (3/5 * 100) = 60 := by rw [jsRound_eq_floor]; norm_num
  have hfirst :
      applyColorUpdate true (some (120, 80)) ColorMemory.empty "light1"
        ⟨none, some 0⟩ =
      (rememberColor (rememberColor ColorMemory.empty "light1" 120 80)
        "light1" 120 0, some (120, 0)) := by
    unfold applyColorUpdate
    norm_num [MEANINGFUL_SATURATION_THRESHOLD, e0]
  constructor
  · rw [hfirst]
  · have h := restore_from_white_uses_remembered_hue
      (applyColorUpdate true (some (120, 80)) ColorMemory.empty "light1"
        ⟨none, some 0⟩).1 "light1" 120 0 (3/5)
      (by norm_num [MEANINGFUL_SATURATION_THRESHOLD])
      (by rw [e60]; norm_num [MEANINGFUL_SATURATION_THRESHOLD])
    rw [h, hfirst, e60]
    norm_num [getRememberedColor, rememberColor, MEANINGFUL_SATURATION_THRESHOLD]

/-! ## Cooldown gate and media/playback handlers

`lastPlaybackCommandTime` is a single process-wide timestamp.  The handlers
record their observable effects as traces: initiated Home Assistant service
calls, debounced updates handed to `debouncedDeviceUpdate` (as
`(deviceId, updateType, value)` triples), and writes to the virtual device
state sink. -/

inductive HACall where
  | volumeSet (id : String) (level : ℚ)
  | mediaPause (id : String)
  | mediaPlay (id : String)
  | mediaNextTrack (id : String)
  | lightTurnOff (id : String)
  | lightTurnOnBrightness (id : String) (brightness : ℤ)
  | climateSetTemperature (id : String) (temperature : ℚ)
deriving DecidableEq

inductive VirtualWrite where
  | speakerVolume (id : String) (volume : ℚ)
deriving DecidableEq

structure SysState where
  lastPlaybackCommandTime : ℤ
  remoteCalls : List HACall
  scheduled : List (String × String × ℚ)
  virtualWrites : List VirtualWrite
deriving DecidableEq

def SysState.initial : SysState := ⟨0, [], [], []⟩

/-- Environment of one `handlePlaybackDeviceUpdate` run: whether
`findDevice` returned a device of type `playback`, whether the
`getMediaPlaybackState` read-back succeeded, and the state string it
returned when it did. -/
structure PlaybackEnv where
  found : Bool
  readStateOk : Bool
  readState : String
deriving DecidableEq

/-- `handlePlaybackDeviceUpdate(deviceId, values)` at time `now` with twist
value `volume`.  Below the 0.1 movement threshold nothing but the recenter
write happens; inside the cooldown window the command is dropped and the
dial recentered; otherwise the playback command determined by the twist
direction and the read-back state is initiated, the cooldown timestamp is
set to `now` (also when the command or the read-back threw, since the
error is caught), and the dial is recentered. -/
def handlePlaybackDeviceUpdate (env : PlaybackEnv) (deviceId : String)
    (volume : ℚ) (now : ℤ) (s : SysState) : SysState :=
  if env.found = false then s else
  let volumeChange := volume - 1/2
  if |volumeChange| > 1/10 then
    if now - s.lastPlaybackCommandTime < PLAYBACK_COOLDOWN_MS then
      { s with virtualWrites := s.virtualWrites ++ [.speakerVolume deviceId (1/2)] }
    else
      let cmds : List HACall :=
        if volumeChange < 0 then [.mediaPause deviceId]
        else if volumeChange > 0 then
          if env.readStateOk = false then []
          else if env.readState = "paused" then [.mediaPlay deviceId]
          else if env.readState = "playing" then [.mediaNextTrack deviceId]
          else [.mediaPlay deviceId]
        else []
      { s with remoteCalls := s.remoteCalls ++ cmds,
               lastPlaybackCommandTime := now,
               virtualWrites := s.virtualWrites ++ [.speakerVolume deviceId (1/2)] }
  else
    { s with virtualWrites := s.virtualWrites ++ [.speakerVolume deviceId (1/2)] }

/-- `handleMediaDeviceUpdate(deviceId, values)` at time `now`:
`hasVolume` tells whether `values.volume` was defined.  Inside the cooldown
window the update is dropped; otherwise the rounded percentage is handed to
the debouncer with an immediate virtual write of `percentage / 100`. -/
def handleMediaDeviceUpdate (hasVolume : Bool) (deviceId : String)
    (volume : ℚ) (now : ℤ) (s : SysState) : SysState :=
  if hasVolume = false then s else
  if now - s.lastPlaybackCommandTime < PLAYBACK_COOLDOWN_MS then s
  else
    let volumePercentage : ℚ := ((jsRound (volume * 100) : ℤ) : ℚ)
    { s with scheduled := s.scheduled ++ [(deviceId, "volume", volumePercentage)],
             virtualWrites := s.virtualWrites ++
               [.speakerVolume deviceId (volumePercentage / 100)] }

/-- Environment of one `adjustDeviceVolume` run: whether `findDevice`
succeeded, whether the `getEntityState` volume read succeeded, and the
`volume_level` attribute it returned. -/
structure VolumeReadEnv where
  found : Bool
  readOk : Bool
  volumeLevel : ℚ
deriving DecidableEq

/-- `adjustDeviceVolume(deviceId, delta)` at time `now`: the cooldown is
checked first; then the device is looked up, the current volume read,
`delta` added and clamped to [0, 100], and `setMediaVolume` initiates a
`volume_set` call carrying the new volume divided by 100. -/
def adjustDeviceVolume (env : VolumeReadEnv) (deviceId : String) (delta : ℚ)
    (now : ℤ) (s : SysState) : SysState :=
  if now - s.lastPlaybackCommandTime < PLAYBACK_COOLDOWN_MS then s
  else if env.found = false then s
  else if env.readOk = false then s
  else
    let currentVolume := env.volumeLevel * 100
    let newVolume := clampQ 0 100 (currentVolume + delta)
    { s with remoteCalls := s.remoteCalls ++ [.volumeSet deviceId (newVolume / 100)] }

lemma adjustDeviceVolume_blocked (env : VolumeReadEnv) (id : String) (δ : ℚ)
    (t : ℤ) (s : SysState)
    (hb : t - s.lastPlaybackCommandTime < PLAYBACK_COOLDOWN_MS) :
    adjustDeviceVolume env id δ t s = s := by
  unfold adjustDeviceVolume
  rw [if_pos hb]

lemma adjustDeviceVolume_unblocked (env : VolumeReadEnv) (id : String) (δ : ℚ)
    (t : ℤ) (s : SysState)
    (hnb : ¬(t - s.lastPlaybackCommandTime < PLAYBACK_COOLDOWN_MS))
    (hf : env.found = true) (hr : env.readOk = true) :
    adjustDeviceVolume env id δ t s =
      { s with remoteCalls := s.remoteCalls ++
          [.volumeSet id (clampQ 0 100 (env.volumeLevel * 100 + δ) / 100)] } := by
  unfold adjustDeviceVolume
  rw [if_neg hnb, if_neg (by rw [hf]; decide), if_neg (by rw [hr]; decide)]

lemma adjustDeviceVolume_lastTime (env : VolumeReadEnv) (id : String) (δ : ℚ)
    (t : ℤ) (s : SysState) :
    (adjustDeviceVolume env id δ t s).lastPlaybackCommandTime
      = s.lastPlaybackCommandTime := by
  unfold adjustDeviceVolume
  by_cases h1 : t - s.lastPlaybackCommandTime < PLAYBACK_COOLDOWN_MS
  · rw [if_pos h1]
  · rw [if_neg h1]
    by_cases h2 : env.found = false
    · rw [if_pos h2]
    · rw [if_neg h2]
      by_cases h3 : env.readOk = false
      · rw [if_pos h3]
      · rw [if_neg h3]

lemma handleMediaDeviceUpdate_blocked (hv : Bool) (id : String) (v : ℚ)
    (t : ℤ) (s : SysState)
    (hb : t - s.lastPlaybackCommandTime < PLAYBACK_COOLDOWN_MS) :
    handleMediaDeviceUpdate hv id v t s = s := by
  unfold handleMediaDeviceUpdate
  by_cases h0 : hv = false
  · rw [if_pos h0]
  · rw [if_neg h0, if_pos hb]

lemma handleMediaDeviceUpdate_unblocked (id : String) (v : ℚ) (t : ℤ)
    (s : SysState)
    (hnb : ¬(t - s.lastPlaybackCommandTime < PLAYBACK_COOLDOWN_MS)) :
    handleMediaDeviceUpdate true id v t s =
      { s with
          scheduled := s.scheduled ++ [(id, "volume", ((jsRound (v * 100) : ℤ) : ℚ))],
          virtualWrites := s.virtualWrites ++
            [.speakerVolume id (((jsRound (v * 100) : ℤ) : ℚ) / 100)] } := by
  unfold handleMediaDeviceUpdate
  rw [if_neg (by decide : ¬((true : Bool) = false)), if_neg hnb]

lemma handleMediaDeviceUpdate_lastTime (hv : Bool) (id : String) (v : ℚ)
    (t : ℤ) (s : SysState) :
    (handleMediaDeviceUpdate hv id v t s).lastPlaybackCommandTime
      = s.lastPlaybackCommandTime := by
  unfold handleMediaDeviceUpdate
  by_cases h0 : hv = false
  · rw [if_pos h0]
  · rw [if_neg h0]
    by_cases h1 : t - s.lastPlaybackCommandTime < PLAYBACK_COOLDOWN_MS
    · rw [if_pos h1]
    · rw [if_neg h1]

lemma handlePlaybackDeviceUpdate_lastTime (pe : PlaybackEnv) (id : String)
    (v : ℚ) (t : ℤ) (s : SysState) :
    (handlePlaybackDeviceUpdate pe id v t s).lastPlaybackCommandTime =
      if pe.found = true ∧ |v - 1/2| > 1/10 ∧
          ¬(t - s.lastPlaybackCommandTime < PLAYBACK_COOLDOWN_MS)
      then t else s.lastPlaybackCommandTime := by
  unfold handlePlaybackDeviceUpdate
  by_cases h0 : pe.found = false
  · rw [if_pos h0, if_neg]
    rintro ⟨hf, -, -⟩
    rw [h0] at hf
    exact (by decide : ¬((false : Bool) = true)) hf
  · rw [if_neg h0]
    have hf : pe.found = true := by
      cases hfv : pe.found
      · exact absurd hfv h0
      · rfl
    by_cases h1 : |v - 1/2| > 1/10
    · rw [if_pos h1]
      by_cases h2 : t - s.lastPlaybackCommandTime < PLAYBACK_COOLDOWN_MS
      · rw [if_pos h2, if_neg]
        rintro ⟨-, -, hnb⟩
        exact hnb h2
      · rw [if_neg h2]
        have hc : pe.found = true ∧ |v - 1/2| > 1/10 ∧
            ¬(t - s.lastPlaybackCommandTime < PLAYBACK_COOLDOWN_MS) := ⟨hf, h1, h2⟩
        rw [if_pos hc]
    · rw [if_neg h1, if_neg]
      rintro ⟨-, ht, -⟩
      exact h1 ht

lemma handlePlaybackDeviceUpdate_blocked_calls (pe : PlaybackEnv) (id : String)
    (v : ℚ) (t : ℤ) (s : SysState)
    (hb : t - s.lastPlaybackCommandTime < PLAYBACK_COOLDOWN_MS) :
    (handlePlaybackDeviceUpdate pe id v t s).remoteCalls = s.remoteCalls := by
  unfold handlePlaybackDeviceUpdate
  by_cases h0 : pe.found = false
  · rw [if_pos h0]
  · rw [if_neg h0]
    by_cases h1 : |v - 1/2| > 1/10
    · rw [if_pos h1, if_pos hb]
    · rw [if_neg h1]

lemma handlePlaybackDeviceUpdate_fires (pe : PlaybackEnv) (id : String)
    (v : ℚ) (t : ℤ) (s : SysState)
    (hfound : pe.found = true) (hthresh : |v - 1/2| > 1/10)
    (hfree : ¬(t - s.lastPlaybackCommandTime < PLAYBACK_COOLDOWN_MS)) :
    handlePlaybackDeviceUpdate pe id v t s =
      { s with
        lastPlaybackCommandTime := t,
        remoteCalls := s.remoteCalls ++
          (if v - 1/2 < 0 then [HACall.mediaPause id]
           else if v - 1/2 > 0 then
             if pe.readStateOk = false then []
             else if pe.readState = "paused" then [HACall.mediaPlay id]
             else if pe.readState = "playing" then [HACall.mediaNextTrack id]
             else [HACall.mediaPlay id]
           else []),
        virtualWrites := s.virtualWrites ++ [VirtualWrite.speakerVolume id (1/2)] } := by
  unfold handlePlaybackDeviceUpdate
  rw [if_neg (by rw [hfound]; decide), if_pos hthresh, if_neg hfree]

lemma full_twist_passes_threshold : |(1 : ℚ) - 1/2| > 1/10 := by
  rw [show (1 : ℚ) - 1/2 = 1/2 by norm_num, abs_of_pos (by norm_num : (0:ℚ) < 1/2)]
  norm_num

/-- C2: after a playback command fires at `t0`, every volume or playback
command strictly inside the window `(t0, t0 + 2500)` is a no-op with no
remote call, a command at or after `t0 + 2500` proceeds normally, and the
no-op decision for a volume update is exactly the predicate
`now - lastPlaybackCommandTime < 2500`. -/
theorem cooldown_window_blocks
    (pe : PlaybackEnv) (idA : String) (v : ℚ) (t0 : ℤ) (s : SysState)
    (hfound : pe.found = true)
    (hthresh : |v - 1/2| > 1/10)
    (hfree : ¬(t0 - s.lastPlaybackCommandTime < PLAYBACK_COOLDOWN_MS)) :
    (handlePlaybackDeviceUpdate pe idA v t0 s).lastPlaybackCommandTime = t0 ∧
    (∀ (env : VolumeReadEnv) (id2 : String) (δ : ℚ) (tt : ℤ), t0 < tt →
      tt < t0 + PLAYBACK_COOLDOWN_MS →
      adjustDeviceVolume env id2 δ tt (handlePlaybackDeviceUpdate pe idA v t0 s)
        = handlePlaybackDeviceUpdate pe idA v t0 s) ∧
    (∀ (id2 : String) (v2 : ℚ) (tt : ℤ), t0 < tt → tt < t0 + PLAYBACK_COOLDOWN_MS →
      handleMediaDeviceUpdate true id2 v2 tt (handlePlaybackDeviceUpdate pe idA v t0 s)
        = handlePlaybackDeviceUpdate pe idA v t0 s) ∧
    (∀ (pe2 : PlaybackEnv) (id2 : String) (v2 : ℚ) (tt : ℤ), t0 < tt →
      tt < t0 + PLAYBACK_COOLDOWN_MS →
      (handlePlaybackDeviceUpdate pe2 id2 v2 tt
          (handlePlaybackDeviceUpdate pe idA v t0 s)).remoteCalls
        = (handlePlaybackDeviceUpdate pe idA v t0 s).remoteCalls ∧
      (handlePlaybackDeviceUpdate pe2 id2 v2 tt
          (handlePlaybackDeviceUpdate pe idA v t0 s)).lastPlaybackCommandTime = t0) ∧
    (∀ (env : VolumeReadEnv) (id2 : String) (δ : ℚ) (tt : ℤ),
      t0 + PLAYBACK_COOLDOWN_MS ≤ tt → env.found = true → env.readOk = true →
      (adjustDeviceVolume env id2 δ tt
          (handlePlaybackDeviceUpdate pe idA v t0 s)).remoteCalls
        = (handlePlaybackDeviceUpdate pe idA v t0 s).remoteCalls ++
            [HACall.volumeSet id2 (clampQ 0 100 (env.volumeLevel * 100 + δ) / 100)]) ∧
    (∀ (id2 : String) (v2 : ℚ) (tt : ℤ), t0 + PLAYBACK_COOLDOWN_MS ≤ tt →
      (handleMediaDeviceUpdate true id2 v2 tt
          (handlePlaybackDeviceUpdate pe idA v t0 s)).scheduled
        = (handlePlaybackDeviceUpdate pe idA v t0 s).scheduled ++
            [(id2, "volume", ((jsRound (v2 * 100) : ℤ) : ℚ))]) ∧
    (∀ (pe2 : PlaybackEnv) (id2 : String) (v2 : ℚ) (tt : ℤ),
      t0 + PLAYBACK_COOLDOWN_MS ≤ tt → pe2.found = true → |v2 - 1/2| > 1/10 →
      (handlePlaybackDeviceUpdate pe2 id2 v2 tt
          (handlePlaybackDeviceUpdate pe idA v t0 s)).lastPlaybackCommandTime = tt) ∧
    (∀ (id2 : String) (v2 : ℚ) (tt : ℤ) (s2 : SysState),
      handleMediaDeviceUpdate true id2 v2 tt s2 = s2 ↔
        tt - s2.lastPlaybackCommandTime < PLAYBACK_COOLDOWN_MS) := by
  have hlast : (handlePlaybackDeviceUpdate pe idA v t0 s).lastPlaybackCommandTime = t0 := by
    rw [handlePlaybackDeviceUpdate_lastTime, if_pos ⟨hfound, hthresh, hfree⟩]
  refine ⟨hlast, ?_, ?_, ?_, ?_, ?_, ?_, ?_⟩
  · intro env id2 δ tt h1 h2
    exact adjustDeviceVolume_blocked env id2 δ tt _ (by rw [hlast]; omega)
  · intro id2 v2 tt h1 h2
    exact handleMediaDeviceUpdate_blocked true id2 v2 tt _ (by rw [hlast]; omega)
  · intro pe2 id2 v2 tt h1 h2
    refine ⟨handlePlaybackDeviceUpdate_blocked_calls pe2 id2 v2 tt _
      (by rw [hlast]; omega), ?_⟩
    rw [handlePlaybackDeviceUpdate_lastTime, if_neg, hlast]
    rintro ⟨-, -, hnb⟩
    rw [hlast] at hnb
    omega
  · intro env id2 δ tt hge hf hr
    rw [adjustDeviceVolume_unblocked env id2 δ tt _ (by rw [hlast]; omega) hf hr]
  · intro id2 v2 tt hge
    rw [handleMediaDeviceUpdate_unblocked id2 v2 tt _ (by rw [hlast]; omega)]
  · intro pe2 id2 v2 tt hge hf2 ht2
    rw [handlePlaybackDeviceUpdate_lastTime,
      if_pos ⟨hf2, ht2, by rw [hlast]; omega⟩]
  · intro id2 v2 tt s2
    constructor
    · intro heq
      by_contra hnb
      have hs := congrArg SysState.scheduled (handleMediaDeviceUpdate_unblocked id2 v2 tt s2 hnb)
      rw [heq] at hs
      have hlen := congrArg List.length hs
      simp at hlen
    · intro hb
      exact handleMediaDeviceUpdate_blocked true id2 v2 tt s2 hb

/-- C2 witness: a playback command fires at `t0 = 5000`; a volume update at
6000 is dropped while one at 7500 proceeds. -/
theorem cooldown_window_blocks_witness :
    (handleMediaDeviceUpdate true "tv" (3/10) 6000
        (handlePlaybackDeviceUpdate ⟨true, true, "playing"⟩ "pb" 1 5000 SysState.initial)
      = handlePlaybackDeviceUpdate ⟨true, true, "playing"⟩ "pb" 1 5000 SysState.initial) ∧
    (handleMediaDeviceUpdate true "tv" (3/10) 7500
        (handlePlaybackDeviceUpdate ⟨true, true, "playing"⟩ "pb" 1 5000 SysState.initial)).scheduled
      = (handlePlaybackDeviceUpdate ⟨true, true, "playing"⟩ "pb" 1 5000
          SysState.initial).scheduled ++ [("tv", "volume", ((jsRound ((3/10) * 100) : ℤ) : ℚ))] := by
  have h := cooldown_window_blocks ⟨true, true, "playing"⟩ "pb" 1 5000 SysState.initial
    rfl full_twist_passes_threshold (by norm_num [SysState.initial, PLAYBACK_COOLDOWN_MS])
  exact ⟨h.2.2.1 "tv" (3/10) 6000 (by norm_num) (by norm_num [PLAYBACK_COOLDOWN_MS]),
         h.2.2.2.2.2.1 "tv" (3/10) 7500 (by norm_num [PLAYBACK_COOLDOWN_MS])⟩

/-- C5: the cooldown timestamp is never touched by a volume change
(neither by `adjustDeviceVolume` nor by `handleMediaDeviceUpdate`), it is
set to the current time by `handlePlaybackDeviceUpdate` exactly when a
playback command passes the movement threshold and the gate, and the gate
is global: a playback command on device A blocks a volume update on any
device B for the window. -/
theorem cooldown_timestamp_policy :
    (∀ (env : VolumeReadEnv) (id : String) (δ : ℚ) (t : ℤ) (s : SysState),
      (adjustDeviceVolume env id δ t s).lastPlaybackCommandTime
        = s.lastPlaybackCommandTime) ∧
    (∀ (hv : Bool) (id : String) (v : ℚ) (t : ℤ) (s : SysState),
      (handleMediaDeviceUpdate hv id v t s).lastPlaybackCommandTime
        = s.lastPlaybackCommandTime) ∧
    (∀ (pe : PlaybackEnv) (id : String) (v : ℚ) (t : ℤ) (s : SysState),
      (handlePlaybackDeviceUpdate pe id v t s).lastPlaybackCommandTime =
        if pe.found = true ∧ |v - 1/2| > 1/10 ∧
            ¬(t - s.lastPlaybackCommandTime < PLAYBACK_COOLDOWN_MS)
        then t else s.lastPlaybackCommandTime) ∧
    (∀ (pe : PlaybackEnv) (idA idB : String) (v v2 : ℚ) (t0 t : ℤ) (s : SysState),
      pe.found = true → |v - 1/2| > 1/10 →
      ¬(t0 - s.lastPlaybackCommandTime < PLAYBACK_COOLDOWN_MS) →
      t - t0 < PLAYBACK_COOLDOWN_MS →
      handleMediaDeviceUpdate true idB v2 t (handlePlaybackDeviceUpdate pe idA v t0 s)
        = handlePlaybackDeviceUpdate pe idA v t0 s) := by
  refine ⟨?_, ?_, ?_, ?_⟩
  · intro env id δ t s
    exact adjustDeviceVolume_lastTime env id δ t s
  · intro hv id v t s
    exact handleMediaDeviceUpdate_lastTime hv id v t s
  · intro pe id v t s
    exact handlePlaybackDeviceUpdate_lastTime pe id v t s
  · intro pe idA idB v v2 t0 t s hf ht hfree hwin
    have hlast : (handlePlaybackDeviceUpdate pe idA v t0 s).lastPlaybackCommandTime = t0 := by
      rw [handlePlaybackDeviceUpdate_lastTime, if_pos ⟨hf, ht, hfree⟩]
    exact handleMediaDeviceUpdate_blocked true idB v2 t _ (by rw [hlast]; omega)

/-- C5 witness: a volume update leaves the timestamp alone; a playback fire
at 5000 sets it to 5000 and blocks a volume update on another device at
6000. -/
theorem cooldown_timestamp_policy_witness :
    (adjustDeviceVolume ⟨true, true, 2/5⟩ "tv" 10 9000
        SysState.initial).lastPlaybackCommandTime = 0 ∧
    (handlePlaybackDeviceUpdate ⟨true, true, "playing"⟩ "pb" 1 5000
        SysState.initial).lastPlaybackCommandTime = 5000 ∧
    handleMediaDeviceUpdate true "tv" (3/10) 6000
        (handlePlaybackDeviceUpdate ⟨true, true, "playing"⟩ "pb" 1 5000 SysState.initial)
      = handlePlaybackDeviceUpdate ⟨true, true, "playing"⟩ "pb" 1 5000 SysState.initial := by
  refine ⟨cooldown_timestamp_policy.1 ⟨true, true, 2/5⟩ "tv" 10 9000 SysState.initial, ?_, ?_⟩
  · rw [cooldown_timestamp_policy.2.2.1 ⟨true, true, "playing"⟩ "pb" 1 5000 SysState.initial]
    rw [if_pos]
    exact ⟨rfl, full_twist_passes_threshold,
      by norm_num [SysState.initial, PLAYBACK_COOLDOWN_MS]⟩
  · exact cooldown_timestamp_policy.2.2.2 ⟨true, true, "playing"⟩ "pb" "tv" 1 (3/10) 5000 6000
      SysState.initial rfl full_twist_passes_threshold
      (by norm_num [SysState.initial, PLAYBACK_COOLDOWN_MS])
      (by norm_num [PLAYBACK_COOLDOWN_MS])

/-- C7: past the threshold and the gate, a decrease twist always initiates
`media_pause`; an increase twist initiates `media_play` when the read-back
state is `paused`, `media_next_track` when it is `playing`, and
`media_play` for any other state. -/
theorem playback_state_machine
    (pe : PlaybackEnv) (id : String) (v : ℚ) (t : ℤ) (s : SysState)
    (hfound : pe.found = true) (hok : pe.readStateOk = true)
    (hthresh : |v - 1/2| > 1/10)
    (hfree : ¬(t - s.lastPlaybackCommandTime < PLAYBACK_COOLDOWN_MS)) :
    (handlePlaybackDeviceUpdate pe id v t s).remoteCalls = s.remoteCalls ++
      [if v - 1/2 < 0 then HACall.mediaPause id
       else if pe.readState = "paused" then HACall.mediaPlay id
       else if pe.readState = "playing" then HACall.mediaNextTrack id
       else HACall.mediaPlay id] := by
  rw [handlePlaybackDeviceUpdate_fires pe id v t s hfound hthresh hfree]
  show s.remoteCalls ++ _ = s.remoteCalls ++ _
  congr 1
  by_cases hneg : v - 1/2 < 0
  · rw [if_pos hneg, if_pos hneg]
  · have hpos : v - 1/2 > 0 := by
      rcases lt_trichotomy (v - 1/2) 0 with h | h | h
      · exact absurd h hneg
      · exfalso; rw [abs_of_nonneg (le_of_eq h.symm), h] at hthresh; norm_num at hthresh
      · exact h
    rw [if_neg hneg, if_pos hpos, if_neg (show ¬(pe.readStateOk = false) by rw [hok]; decide),
      if_neg hneg]
    by_cases hp : pe.readState = "paused"
    · rw [if_pos hp, if_pos hp]
    · rw [if_neg hp, if_neg hp]
      by_cases hpl : pe.readState = "playing"
      · rw [if_pos hpl, if_pos hpl]
      · rw [if_neg hpl, if_neg hpl]

/-- C7 witness: an increase twist on a playing device initiates
`media_next_track`. -/
theorem playback_state_machine_witness :
    (handlePlaybackDeviceUpdate ⟨true, true, "playing"⟩ "pb" 1 5000
        SysState.initial).remoteCalls = [HACall.mediaNextTrack "pb"] := by
  have h := playback_state_machine ⟨true, true, "playing"⟩ "pb" 1 5000 SysState.initial
    rfl rfl full_twist_passes_threshold
    (by norm_num [SysState.initial, PLAYBACK_COOLDOWN_MS])
  rw [h]
  simp [SysState.initial]
  norm_num

/-- C10: whenever the playback handler runs on a found playback device, it
ends with exactly one recentering write of volume 0.5 to the virtual
device, whatever the threshold, gate, read-back or command outcome. -/
theorem playback_always_recenters
    (pe : PlaybackEnv) (id : String) (v : ℚ) (t : ℤ) (s : SysState)
    (hfound : pe.found = true) :
    (handlePlaybackDeviceUpdate pe id v t s).virtualWrites
      = s.virtualWrites ++ [VirtualWrite.speakerVolume id (1/2)] := by
  unfold handlePlaybackDeviceUpdate
  rw [if_neg (show ¬(pe.found = false) by rw [hfound]; decide)]
  by_cases ht : |v - 1/2| > 1/10
  · rw [if_pos ht]
    by_cases hb : t - s.lastPlaybackCommandTime < PLAYBACK_COOLDOWN_MS
    · rw [if_pos hb]
    · rw [if_neg hb]
  · rw [if_neg ht]

/-- C10 witness: a twist below the movement threshold still recenters the
dial. -/
theorem playback_always_recenters_witness :
    (handlePlaybackDeviceUpdate ⟨true, false, "idle"⟩ "pb" (26/50) 1 SysState.initial).virtualWrites
      = [VirtualWrite.speakerVolume "pb" (1/2)] := by
  have h := playback_always_recenters ⟨true, false, "idle"⟩ "pb" (26/50) 1 SysState.initial rfl
  rw [h]
  norm_num [SysState.initial]

/-! ## Light brightness path (`handleLightDeviceUpdate` + `setLightBrightness`) -/

/-- `setLightBrightness(deviceId, brightness)`: the `light.turn_on` call it
initiates, with `Math.max(0, Math.min(255, Math.round(brightness)))` as
payload. -/
def setLightBrightness (deviceId : String) (brightness : ℚ) : HACall :=
  .lightTurnOnBrightness deviceId (clampZ 0 255 (jsRound brightness))

/-- The brightness branch of `handleLightDeviceUpdate` for a defined
`values.brightness` field `vb` (normalized 0..1), composed with the command
the debounced apply eventually initiates: `brightness === 0` turns the
light off immediately, anything else reaches `setLightBrightness`. -/
def handleLightDeviceUpdateBrightness (deviceId : String) (vb : ℚ) : HACall :=
  let brightness := jsRound (vb * 255)
  if brightness = 0 then .lightTurnOff deviceId
  else setLightBrightness deviceId ((brightness : ℤ) : ℚ)

lemma jsRound_intCast (n : ℤ) : jsRound ((n : ℚ)) = n := by
  rw [jsRound_eq_floor, Int.floor_int_add]
  norm_num

/-- C8: a requested brightness that rounds to zero becomes a power-off call
instead of a brightness call, and any nonzero rounded request becomes a
`light.turn_on` whose payload is the request rounded to the nearest integer
and clamped into [0, 255]. -/
theorem light_brightness_mapping (deviceId : String) (vb : ℚ) :
    (jsRound (vb * 255) = 0 →
      handleLightDeviceUpdateBrightness deviceId vb = .lightTurnOff deviceId) ∧
    (jsRound (vb * 255) ≠ 0 →
      handleLightDeviceUpdateBrightness deviceId vb =
        .lightTurnOnBrightness deviceId (clampZ 0 255 (jsRound (vb * 255)))) := by
  constructor
  · intro h0
    unfold handleLightDeviceUpdateBrightness
    rw [if_pos h0]
  · intro hnz
    unfold handleLightDeviceUpdateBrightness setLightBrightness
    rw [if_neg hnz, jsRound_intCast]

/-- C8 witness: requested brightness 200 maps to a `turn_on` with payload
200, requested brightness 0 maps to a power-off. -/
theorem light_brightness_mapping_witness :
    handleLightDeviceUpdateBrightness "light1" (200/255) =
      HACall.lightTurnOnBrightness "light1" 200 ∧
    handleLightDeviceUpdateBrightness "light1" 0 = HACall.lightTurnOff "light1" := by
  have hz : jsRound ((200/255 : ℚ) * 255) = 200 := by
    rw [show ((200 : ℚ)/255 * 255) = 200 by norm_num, jsRound_eq_floor]
    norm_num
  have h0 : jsRound ((0 : ℚ) * 255) = 0 := by
    rw [show ((0 : ℚ) * 255) = 0 by norm_num, jsRound_eq_floor]
    norm_num
  constructor
  · have h := (light_brightness_mapping "light1" (200/255)).2 (by rw [hz]; decide)
    rw [h, hz]
    decide
  · exact (light_brightness_mapping "light1" 0).1 h0

/-! ## Climate temperature path (`handleClimateDeviceUpdate` +
`setClimateTemperature`) -/

/-- Per-device temperature range (`device.tempRange`, defaulting to
`HA_CONFIG.valueRanges.climate = { min: 16, max: 30 }`). -/
structure TempRange where
  min : ℚ
  max : ℚ
deriving DecidableEq

/-- The position-to-temperature computation of `handleClimateDeviceUpdate`:
`tempRange.min + position * (tempRange.max - tempRange.min)`, rounded to
one decimal place. -/
def handleClimateDeviceUpdatePosition (r : TempRange) (position : ℚ) : ℚ :=
  round1 (r.min + position * (r.max - r.min))

/-- `setClimateTemperature(deviceId, temperature)`: the
`climate.set_temperature` call it initiates, with the temperature rounded
to one decimal and clamped into the device range. -/
def setClimateTemperature (deviceId : String) (r : TempRange)
    (temperature : ℚ) : HACall :=
  .climateSetTemperature deviceId (clampQ r.min r.max (round1 temperature))

/-- The composite: what the debounced apply sends for a twist position. -/
def climateCommandFromPosition (deviceId : String) (r : TempRange)
    (p : ℚ) : HACall :=
  setClimateTemperature deviceId r (handleClimateDeviceUpdatePosition r p)

lemma round1_idem (x : ℚ) : round1 (round1 x) = round1 x := by
  unfold round1
  rw [show ((jsRound (x * 10) : ℤ) : ℚ) / 10 * 10 = ((jsRound (x * 10) : ℤ) : ℚ) by ring,
    jsRound_intCast]

/-- C9: the temperature sent for twist position `p` on range `r` is
`r.min + p * (r.max - r.min)` rounded to one decimal and clamped into
`[r.min, r.max]`; for the range [16, 30] and position one half it is
exactly 23.0. -/
theorem climate_position_to_temperature (deviceId : String) (r : TempRange) (p : ℚ) :
    climateCommandFromPosition deviceId r p =
      HACall.climateSetTemperature deviceId
        (clampQ r.min r.max (round1 (r.min + p * (r.max - r.min)))) ∧
    climateCommandFromPosition deviceId ⟨16, 30⟩ (1/2) =
      HACall.climateSetTemperature deviceId 23 := by
  constructor
  · unfold climateCommandFromPosition setClimateTemperature handleClimateDeviceUpdatePosition
    rw [round1_idem]
  · unfold climateCommandFromPosition setClimateTemperature handleClimateDeviceUpdatePosition
    have h23 : round1 ((16 : ℚ) + 1/2 * (30 - 16)) = 23 := by
      unfold round1
      rw [show (((16 : ℚ) + 1/2 * (30 - 16)) * 10) = 230 by norm_num, jsRound_eq_floor]
      norm_num
    have h23b : round1 ((23 : ℚ)) = 23 := by
      unfold round1
      rw [show ((23 : ℚ) * 10) = 230 by norm_num, jsRound_eq_floor]
      norm_num
    show HACall.climateSetTemperature deviceId
        (clampQ 16 30 (round1 (round1 (16 + 1/2 * (30 - 16))))) = _
    rw [h23, h23b]
    norm_num [clampQ]

/-! ## The debounced timeout callback (order of events on fire)

`setTimeout(async () => { try { await updateFunction(updateData); } catch
(error) { console.error(...); } finally { pendingUpdates.delete(key);
expectedStates.delete(key); } }, DEBOUNCE_DELAY)` -/

inductive FireEvent (V : Type) where
  | invokeRemote (v : V)
  | logError
  | removeEntry
deriving DecidableEq

/-- The ordered observable events of one run of the timeout callback with
payload `v`: the remote apply is invoked; if it threw or rejected
(`remoteOk = false`) the error is logged; in both cases the `finally`
deletes the pending entry afterwards.  Nothing is retried and nothing
propagates to a caller (the callback has none). -/
def fireCallbackTrace {V : Type} (v : V) (remoteOk : Bool) : List (FireEvent V) :=
  if remoteOk then [.invokeRemote v, .removeEntry]
  else [.invokeRemote v, .logError, .removeEntry]

def FireEvent.isInvoke {V : Type} : FireEvent V → Bool
  | .invokeRemote _ => true
  | _ => false

/-- The ordering the claim asserts: some removal of the pending entry is
followed, later in the trace, by the remote-apply invocation. -/
def removeThenInvoke {V : Type} : List (FireEvent V) → Bool
  | [] => false
  | .removeEntry :: rest => rest.any FireEvent.isInvoke || removeThenInvoke rest
  | _ :: rest => removeThenInvoke rest

/-- C6 counterexample: on fire the remote apply is invoked, yet in neither
the success nor the failure trace does the removal of the pending entry
precede that invocation — the `finally` deletes the entry only after
`updateFunction` settles. -/
theorem fire_order_counterexample :
    (fireCallbackTrace (0 : ℕ) true).any FireEvent.isInvoke = true ∧
    (fireCallbackTrace (0 : ℕ) false).any FireEvent.isInvoke = true ∧
    removeThenInvoke (fireCallbackTrace (0 : ℕ) true) = false ∧
    removeThenInvoke (fireCallbackTrace (0 : ℕ) false) = false := by decide

/-- C6 (amended): when the scheduled apply fires, the remote apply is
invoked exactly once; if it throws or rejects the error is logged and
swallowed with no retry and no propagation; and the pending entry is
removed as the last step, whether the apply succeeds or fails (likewise,
in the burst model the fired timer always leaves no pending entry). -/
theorem fire_invokes_then_removes {V : Type} (v : V) (ok : Bool) :
    (fireCallbackTrace v ok).countP (fun e => FireEvent.isInvoke e) = 1 ∧
    (fireCallbackTrace v ok).getLast? = some FireEvent.removeEntry ∧
    (FireEvent.logError ∈ fireCallbackTrace v ok ↔ ok = false) ∧
    (∀ s : DebounceState V, (flushTimers s).pending = none) := by
  refine ⟨?_, ?_, ?_, ?_⟩
  · cases ok <;> simp [fireCallbackTrace, FireEvent.isInvoke]
  · cases ok <;> simp [fireCallbackTrace]
  · cases ok <;> simp [fireCallbackTrace]
  · intro s
    cases h : s.pending with
    | none => simp [flushTimers, h]
    | some p => cases p with
      | mk ft pv => simp [flushTimers, h]

/-- C6 witness: the amended statement at payload 7 with a failing apply. -/
theorem fire_invokes_then_removes_witness :
    (fireCallbackTrace (7 : ℕ) false).countP (fun e => FireEvent.isInvoke e) = 1 ∧
    (fireCallbackTrace (7 : ℕ) false).getLast? = some FireEvent.removeEntry ∧
    (FireEvent.logError ∈ fireCallbackTrace (7 : ℕ) false ↔ false = false) ∧
    (∀ s : DebounceState ℕ, (flushTimers s).pending = none) :=
  @fire_invokes_then_removes ℕ 7 false

end FlicHass
